import Mathlib

/-!
Verification of the EDIFACT ORDERS generators in `AScotM/edifact_order`.

The repository contains three variants of the same message-composition
engine:
  * `order_export.py`            (namespace `OrderExport` below)
  * `refactor1/order.py`         (namespace `Refactor1`)
  * `refactor2/order_edi.py`     (namespace `Refactor2`)

Python `decimal.Decimal` values are modelled by the structure `Dec`
(an integer mantissa together with the number of fractional digits);
strings are modelled by Lean `String`; Python dictionaries with
possibly-missing keys are modelled by records of `Option` fields;
Python exceptions are modelled by `Except String`.
-/

namespace EDI

/-- A fixed-point decimal: value `mant / 10 ^ exp`.  This models Python's
`decimal.Decimal` at the scale the generators use (the model keeps exact
integer mantissas and does not model the 28-significant-digit context
limit, which none of the generators' operations on realistic order data
reach). -/
structure Dec where
  mant : Int
  exp : Nat
deriving DecidableEq, Repr

/-- Python `Decimal` addition: align to the larger number of fractional
digits, add mantissas (the result exponent of `Decimal.__add__` is the
min of the operand exponents, i.e. the larger fractional scale). -/
def decAdd (a b : Dec) : Dec :=
  let e := max a.exp b.exp
  ⟨a.mant * (10 : Int) ^ (e - a.exp) + b.mant * (10 : Int) ^ (e - b.exp), e⟩

/-- Python `Decimal * Decimal`: mantissas multiply, scales add. -/
def decMul (a b : Dec) : Dec :=
  ⟨a.mant * b.mant, a.exp + b.exp⟩

/-- Python `Decimal * int` (quantity times price): scale unchanged. -/
def decMulInt (a : Dec) (n : Int) : Dec :=
  ⟨a.mant * n, a.exp⟩

/-- Python `Decimal / 100` as it occurs in the tax computations.  Division
by `100` of a finite decimal is exact: the value is the mantissa with two
more fractional digits.  (CPython may choose a different but value-equal
exponent via its ideal-exponent rule; every use below is quantized to two
fractional digits before it is rendered, so only the value matters.) -/
def decDiv100 (a : Dec) : Dec :=
  ⟨a.mant, a.exp + 2⟩

/-- The two rounding modes the generators use: `decimal.ROUND_HALF_UP`
(ties away from zero) and the context default `decimal.ROUND_HALF_EVEN`
(ties to even), the latter being what `quantize` without an explicit mode
and `format(x, ".2f")` apply. -/
inductive RMode where
  | halfUp
  | halfEven
deriving DecidableEq, Repr

/-- Round the integer `n` divided by the positive integer `d` to an
integer, ties away from zero (`ROUND_HALF_UP`).  `d` is always an even
power of ten here, so `d / 2` is exact. -/
def halfUpInt (n d : Int) : Int :=
  if 0 ≤ n then (n + d / 2).ediv d else -((-n + d / 2).ediv d)

/-- Round the integer `n` divided by the positive integer `d` to an
integer, ties to even (`ROUND_HALF_EVEN`). -/
def halfEvenInt (n d : Int) : Int :=
  let q := n.ediv d
  let r := n.emod d
  if 2 * r < d then q
  else if d < 2 * r then q + 1
  else if q % 2 = 0 then q else q + 1

/-- `x.quantize(Decimal("0.01"), rounding=mode)`: bring a decimal to
exactly two fractional digits. -/
def quant2 (mode : RMode) (d : Dec) : Dec :=
  if d.exp ≤ 2 then ⟨d.mant * (10 : Int) ^ (2 - d.exp), 2⟩
  else
    let div : Int := (10 : Int) ^ (d.exp - 2)
    match mode with
    | .halfUp => ⟨halfUpInt d.mant div, 2⟩
    | .halfEven => ⟨halfEvenInt d.mant div, 2⟩

/-- Digit character for a value below ten. -/
def digitChar : Nat → Char
  | 0 => '0' | 1 => '1' | 2 => '2' | 3 => '3' | 4 => '4'
  | 5 => '5' | 6 => '6' | 7 => '7' | 8 => '8' | _ => '9'

/-- Base-ten digits of a natural number, most significant first
(fuel-based so the kernel can evaluate it). -/
def natDigitsAux : Nat → Nat → List Char
  | 0, _ => []
  | fuel + 1, n =>
    if n < 10 then [digitChar n]
    else natDigitsAux fuel (n / 10) ++ [digitChar (n % 10)]

/-- Base-ten digits of a natural number, most significant first. -/
def natDigits (n : Nat) : List Char :=
  natDigitsAux (n + 1) n

/-- Decimal rendering of a natural number, as Python `str` prints it. -/
def natStr (n : Nat) : String :=
  String.mk (natDigits n)

/-- Decimal rendering of an integer, as Python `str` prints it. -/
def intStr (i : Int) : String :=
  if i < 0 then "-" ++ natStr i.natAbs else natStr i.natAbs

/-- `str` of a Python `Decimal` whose exponent is a (non-negative)
fractional scale: digits, with a decimal point when the scale is
positive, e.g. `str(Decimal("20.0")) = "20.0"`,
`str(Decimal("51.00")) = "51.00"`, `str(Decimal("7")) = "7"`. -/
def renderDec (d : Dec) : String :=
  let ds := natDigits d.mant.natAbs
  let pad := List.replicate (d.exp + 1 - ds.length) '0' ++ ds
  let ip := pad.take (pad.length - d.exp)
  let fp := pad.drop (pad.length - d.exp)
  String.mk ((if d.mant < 0 then ['-'] else []) ++
    ip ++ (if d.exp = 0 then [] else '.' :: fp))

/-- Python `f"{x:.2f}"` on a `Decimal`: quantize to two fractional digits
with the context rounding (`ROUND_HALF_EVEN` by default) and render. -/
def fmt2f (d : Dec) : String :=
  renderDec (quant2 .halfEven d)

/-- Is `c` an ASCII digit? -/
def isDig (c : Char) : Bool :=
  '0' ≤ c && c ≤ '9'

/-- Value of a digit character. -/
def digVal (c : Char) : Nat :=
  c.toNat - '0'.toNat

/-- Numeric value of a digit string (assumed all digits). -/
def digitsVal (l : List Char) : Nat :=
  l.foldl (fun acc c => acc * 10 + digVal c) 0

/-- Python `int(s)` on the strings the generators feed it: an optional
sign followed by at least one digit (surrounding whitespace, `+` signs
and underscores, which Python also accepts, do not occur in the data
model).  `none` models the `ValueError` that `int` raises otherwise. -/
def parseInt (s : String) : Option Int :=
  match s.data with
  | [] => none
  | '-' :: rest =>
    if rest ≠ [] && rest.all isDig then some (-(digitsVal rest : Int)) else none
  | l =>
    if l.all isDig then some (digitsVal l : Int) else none

/-- Python `Decimal(s)` on the numeric strings the generators feed it: an
optional sign, digits, an optional point followed by more digits, at
least one digit in total (exponent notation and the special values, which
do not occur in the order data, are not modelled).  `none` models the
`InvalidOperation` that the constructor raises otherwise. -/
def parseDec (s : String) : Option Dec :=
  let core : List Char → Option Dec := fun l =>
    match l.span (fun c => c ≠ '.') with
    | (ipart, rest) =>
      let fpart := rest.drop 1
      if ipart.all isDig && fpart.all isDig && (ipart ≠ [] || fpart ≠ []) &&
          (rest.all (fun c => c = '.' || isDig c)) then
        some ⟨(digitsVal (ipart ++ fpart) : Int), fpart.length⟩
      else none
  match s.data with
  | [] => none
  | '-' :: rest => (core rest).map (fun d => ⟨-d.mant, d.exp⟩)
  | l => core l

/-- Truthiness of an optional string, as Python evaluates
`data.get(field)`: missing and empty are falsy. -/
def truthyS : Option String → Bool
  | none => false
  | some s => s ≠ ""

/-- A party dictionary.  `none` models a missing key. -/
structure Party where
  qualifier : Option String := none
  id : Option String := none
  name : Option String := none
  address : Option String := none
  contact : Option String := none
deriving DecidableEq, Repr

/-- An item dictionary.  `none` models a missing key.  The numeric fields
are carried as the strings the caller supplied (refactor2's sample passes
`price` as a `Decimal`; since its validator applies `Decimal(str(price))`,
carrying the string is equivalent). -/
structure Item where
  product_code : Option String := none
  description : Option String := none
  quantity : Option String := none
  price : Option String := none
deriving DecidableEq, Repr

/-- The top-level order dictionary.  `none` models a missing key; for the
collections, `some []` models a present-but-empty list. -/
structure OrderData where
  message_ref : Option String := none
  order_number : Option String := none
  order_date : Option String := none
  delivery_date : Option String := none
  currency : Option String := none
  delivery_location : Option String := none
  payment_terms : Option String := none
  tax_rate : Option String := none
  special_instructions : Option String := none
  incoterms : Option String := none
  parties : Option (List Party) := none
  items : Option (List Item) := none
deriving DecidableEq, Repr

end EDI

namespace OrderExport

open EDI

/-- `UNA = "UNA:+.? '"` -/
def UNA : String := "UNA:+.? '"

/-- `ORDERS_MSG_TYPE = "ORDERS:D:96A:UN"` -/
def ORDERS_MSG_TYPE : String := "ORDERS:D:96A:UN"

/-- `DATE_FORMAT = "102"` -/
def DATE_FORMAT : String := "102"

/-- `validate_data` of `order_export.py`: each of the five required fields
must be present and truthy (`if not data.get(field)`), then `items` must
be a non-empty list (always a list in this model, and already known
truthy, so the second check cannot fire; it is kept for fidelity).
The error is the raised `ValueError`'s message. -/
def validate_data (data : OrderData) : Except String Unit :=
  if ¬ truthyS data.message_ref then
    .error "Missing required field: message_ref"
  else if ¬ truthyS data.order_number then
    .error "Missing required field: order_number"
  else if ¬ truthyS data.order_date then
    .error "Missing required field: order_date"
  else if data.parties.getD [] = [] then
    .error "Missing required field: parties"
  else if data.items.getD [] = [] then
    .error "Missing required field: items"
  else if data.items.getD [] = [] then
    .error "ORDERS must contain at least one item."
  else .ok ()

/-- `format_party`: returns the NAD segment, or the empty string for a
party whose dictionary lacks `qualifier` or `id` (the empty string is
then dropped by `filter(None, ...)` in `generate_orders`). -/
def format_party (party : Party) : String :=
  match party.qualifier, party.id with
  | some q, some i => "NAD+" ++ q ++ "+" ++ i ++ "::91'"
  | _, _ => ""

/-- `format_item`: for an item with all four required keys, the four
segments and the exact line total `Decimal(price) * int(quantity)`.
When a key is missing, the Python function returns the bare list `[]`;
the caller `formatted_item, line_total = format_item(index, item)` then
fails to unpack it, raising `ValueError: not enough values to unpack` —
that crash, and the `ValueError` raised by `int`/the `InvalidOperation`
raised by `Decimal` on an unparseable field, are the error cases here. -/
def format_item (index : Nat) (item : Item) : Except String (List String × Dec) :=
  match item.product_code, item.description, item.quantity, item.price with
  | some pc, some desc, some qs, some ps =>
    match parseInt qs with
    | none => throw "ValueError: invalid literal for int()"
    | some q =>
      match parseDec ps with
      | none => throw "InvalidOperation: invalid Decimal literal"
      | some p =>
        .ok ([ "LIN+" ++ natStr index ++ "++" ++ pc ++ ":EN'",
               "IMD+F++:::" ++ desc ++ "'",
               "QTY+21:" ++ intStr q ++ ":EA'",
               "PRI+AAA:" ++ renderDec p ++ ":EA'" ],
             decMulInt p q)
  | _, _, _, _ => throw "ValueError: not enough values to unpack (expected 2, got 0)"

/-- The item loop of `generate_orders`: enumerate from 1, append the
segments of each item and accumulate the running total (`if
formatted_item:` is always true on a successful unpack, since a valid
item yields four segments). -/
def itemLoop (index : Nat) (acc : List String × Dec) :
    List Item → Except String (List String × Dec)
  | [] => .ok acc
  | item :: rest => do
    let (segs, lineTotal) ← format_item index item
    itemLoop (index + 1) (acc.1 ++ segs, decAdd acc.2 lineTotal) rest

/-- The segment list built by `generate_orders` after successful
validation (file writing is a collaborator concern and not modelled). -/
def generateSegments (data : OrderData) : Except String (List String) := do
  let _ ← validate_data data
  let base :=
    [ UNA,
      "UNH+" ++ data.message_ref.getD "" ++ "+" ++ ORDERS_MSG_TYPE ++ "'",
      "BGM+220+" ++ data.order_number.getD "" ++ "+9'",
      "DTM+137:" ++ data.order_date.getD "" ++ ":" ++ DATE_FORMAT ++ "'" ] ++
    (match data.delivery_date with
     | some d => ["DTM+2:" ++ d ++ ":" ++ DATE_FORMAT ++ "'"]
     | none => []) ++
    ((data.parties.getD []).map format_party).filter (fun s => s ≠ "")
  let (itemSegs, total) ← itemLoop 1 ([], ⟨0, 2⟩) (data.items.getD [])
  let withTotal := base ++ itemSegs ++ ["MOA+79:" ++ fmt2f total ++ ":'"] ++
    (match data.special_instructions with
     | some s => ["FTX+AAI+++" ++ s ++ "'"]
     | none => [])
  let segmentCount := withTotal.length - 1
  .ok (withTotal ++ ["UNT+" ++ natStr segmentCount ++ "+" ++ data.message_ref.getD "" ++ "'"])

/-- `generate_orders`: a validation failure is caught (`except ValueError
... return ""`), so the caller receives the empty string rather than an
error; any error raised later (by the item loop) propagates. -/
def generate_orders (data : OrderData) : Except String String :=
  match validate_data data with
  | .error _ => .ok ""
  | .ok _ => (generateSegments data).map (String.intercalate "\n")

end OrderExport

namespace Refactor1

open EDI

/-- `EdifactConfig` of `refactor1/order.py` (defaults
`UNA_SEGMENT`, `ORDERS_MSG_TYPE`, `DATE_FORMAT`). -/
structure EdifactConfig where
  una_segment : String := "UNA:+.? '"
  message_type : String := "ORDERS:D:96A:UN"
  date_format : String := "102"
deriving DecidableEq, Repr

/-- `validate_order_data`: all five required keys must be present
(`all(field in data ...)` — presence only, truthiness is not checked),
then `items` must be a non-empty list.  Errors are the messages of the
raised `EdifactGenerationError`. -/
def validate_order_data (data : OrderData) : Except String OrderData :=
  if data.message_ref.isNone || data.order_number.isNone || data.order_date.isNone ||
      data.parties.isNone || data.items.isNone then
    .error "Missing required fields."
  else if data.items.getD [] = [] then
    .error "At least one item is required."
  else .ok data

/-- `format_party` of refactor1: reads `party["qualifier"]` and
`party["id"]` directly — a missing key raises `KeyError` (there is no
skip logic in this variant); then appends CTA/COM segments for a truthy
`name`/`address` (the walrus `if name := party.get("name")` is a
truthiness test). -/
def format_party (party : Party) : Except String (List String) :=
  match party.qualifier with
  | none => throw "KeyError: 'qualifier'"
  | some q =>
    match party.id with
    | none => throw "KeyError: 'id'"
    | some i =>
      .ok (["NAD+" ++ q ++ "+" ++ i ++ "::91'"] ++
        (match party.name with
         | some n => if n ≠ "" then ["CTA+IC+" ++ n ++ "'"] else []
         | none => []) ++
        (match party.address with
         | some a => if a ≠ "" then ["COM+" ++ a ++ ":AD'"] else []
         | none => []))

/-- `format_order_item` of refactor1: reads the item keys directly
(`KeyError` on a missing key, in the evaluation order of the source:
`quantity`, `price`, then the keys used inside the segment list), parses
the numerics (`ValueError`/`InvalidOperation` on failure), and renders
the price with `f"{price:.2f}"`. -/
def format_order_item (index : Nat) (item : Item) :
    Except String (List String × Dec) := do
  let qs ← match item.quantity with
    | none => throw "KeyError: 'quantity'"
    | some s => pure s
  let q ← match parseInt qs with
    | none => throw "ValueError: invalid literal for int()"
    | some q => pure q
  let ps ← match item.price with
    | none => throw "KeyError: 'price'"
    | some s => pure s
  let p ← match parseDec ps with
    | none => throw "InvalidOperation: invalid Decimal literal"
    | some p => pure p
  let pc ← match item.product_code with
    | none => throw "KeyError: 'product_code'"
    | some s => pure s
  let desc ← match item.description with
    | none => throw "KeyError: 'description'"
    | some s => pure s
  .ok ([ "LIN+" ++ natStr index ++ "++" ++ pc ++ ":EN'",
         "IMD+F++:::" ++ desc ++ "'",
         "QTY+21:" ++ intStr q ++ ":EA'",
         "PRI+AAA:" ++ fmt2f p ++ ":EA'" ],
       decMulInt p q)

/-- The party loop of `generate_edifact_orders`: every party is formatted
(any invalid party aborts the whole generation with its `KeyError`). -/
def partyLoop : List Party → Except String (List String)
  | [] => .ok []
  | p :: rest => do
    let segs ← format_party p
    let restSegs ← partyLoop rest
    .ok (segs ++ restSegs)

/-- The item loop of `generate_edifact_orders`: enumerate from 1,
accumulating segments and the exact running total. -/
def itemLoop (index : Nat) (acc : List String × Dec) :
    List Item → Except String (List String × Dec)
  | [] => .ok acc
  | item :: rest => do
    let (segs, lineTotal) ← format_order_item index item
    itemLoop (index + 1) (acc.1 ++ segs, decAdd acc.2 lineTotal) rest

/-- The segment list built by `generate_edifact_orders` of refactor1
(file writing not modelled).  The tax block runs only for a truthy
`tax_rate` string; the tax amount is
`(total * Decimal(tax_rate) / 100).quantize(Decimal("0.01"))` — no
rounding argument, so the context default `ROUND_HALF_EVEN` applies —
and the TAX segment interpolates the raw `tax_rate` string. -/
def generateSegments (data : OrderData)
    (config : EdifactConfig := {}) : Except String (List String) := do
  let vd ← validate_order_data data
  let base :=
    [ config.una_segment,
      "UNH+" ++ vd.message_ref.getD "" ++ "+" ++ config.message_type ++ "'",
      "BGM+220+" ++ vd.order_number.getD "" ++ "+9'",
      "DTM+137:" ++ vd.order_date.getD "" ++ ":" ++ config.date_format ++ "'" ] ++
    (match vd.delivery_date with
     | some d => if d ≠ "" then ["DTM+2:" ++ d ++ ":" ++ config.date_format ++ "'"] else []
     | none => []) ++
    (match vd.currency with
     | some c => if c ≠ "" then ["CUX+2:" ++ c ++ ":9'"] else []
     | none => [])
  let partySegs ← partyLoop (vd.parties.getD [])
  let (itemSegs, total) ← itemLoop 1 ([], ⟨0, 2⟩) (vd.items.getD [])
  let (taxSegs, totalAfterTax) ←
    match vd.tax_rate with
    | some ts =>
      if ts ≠ "" then do
        let rate ← match parseDec ts with
          | none => throw "InvalidOperation: invalid Decimal literal"
          | some r => pure r
        let taxAmount := quant2 .halfEven (decDiv100 (decMul total rate))
        pure ([ "TAX+7+VAT+++:::" ++ ts ++ "%'",
                "MOA+124:" ++ fmt2f taxAmount ++ ":'" ],
              decAdd total taxAmount)
      else pure ([], total)
    | none => pure ([], total)
  let withTotal := base ++ partySegs ++ itemSegs ++ taxSegs ++
    ["MOA+79:" ++ fmt2f totalAfterTax ++ ":'"]
  let segmentCount := withTotal.length - 1
  .ok (withTotal ++
    ["UNT+" ++ natStr segmentCount ++ "+" ++ vd.message_ref.getD "" ++ "'"])

/-- `generate_edifact_orders` of refactor1: validation errors are logged
and re-raised (`raise`), so every error propagates to the caller. -/
def generate_edifact_orders (data : OrderData)
    (config : EdifactConfig := {}) : Except String String :=
  (generateSegments data config).map (String.intercalate "\n")

end Refactor1

namespace Refactor2

open EDI

/-- `EDIFACT_SPECIAL_CHARS = ["?", "'", "+", ":", "*"]` -/
def EDIFACT_SPECIAL_CHARS : List Char := ['?', '\'', '+', ':', '*']

/-- `EdifactConfig` of `refactor2/order_edi.py` with its defaults. -/
structure EdifactConfig where
  una_segment : String := "UNA:+.? '"
  message_type : String := "ORDERS"
  date_format : String := "102"
  version : String := "D"
  release : String := "96A"
  controlling_agency : String := "UN"
  decimal_rounding : String := "0.01"
deriving DecidableEq, Repr

/-- Python `str.replace(pat, repl)` for a single-character pattern,
at the character-list level. -/
def replaceChar (pat : Char) (repl : List Char) : List Char → List Char
  | [] => []
  | c :: rest =>
    if c = pat then repl ++ replaceChar pat repl rest
    else c :: replaceChar pat repl rest

/-- The loop body of `escape_edifact` on character lists: for each
special character in order (`?` first), replace every occurrence by `?`
followed by the character. -/
def escBody (l : List Char) : List Char :=
  EDIFACT_SPECIAL_CHARS.foldl (fun v c => replaceChar c ['?', c] v) l

/-- `SegmentGenerator.escape_edifact`.  (`if not value: return value` is
the identity on the empty string, so it needs no separate case.) -/
def escape_edifact (value : String) : String :=
  String.mk (escBody value.data)

/-- Reading the escaped text back: each `?x` pair denotes the literal
character `x`; any other character denotes itself.  This is the decoding
the UNA service-string advice prescribes for the release character. -/
def unescapeChars : List Char → List Char
  | [] => []
  | [c] => [c]
  | c1 :: c2 :: rest =>
    if c1 = '?' then c2 :: unescapeChars rest
    else c1 :: unescapeChars (c2 :: rest)

/-- `SegmentGenerator.nad`: the NAD segment, with an embedded
`\n`-separated CTA segment when `name` is truthy (the two lines are a
single element of the segment list, which matters for the UNT count). -/
def nad (qualifier party_id : String) (name : Option String) : String :=
  "NAD+" ++ qualifier ++ "+" ++ party_id ++ "::91'" ++
    (match name with
     | some n => if n ≠ "" then "\nCTA+IC+" ++ escape_edifact n ++ "'" else ""
     | none => "")

/-- `SegmentGenerator.com`. -/
def com (contact : String) (contact_type : String) : String :=
  "COM+" ++ escape_edifact contact ++ ":" ++ contact_type ++ "'"

/-- The quantum `Decimal(config.decimal_rounding)` used by `pri` and
`moa` (a parse failure would raise in Python; the default `"0.01"`
parses). -/
def quantum (config : EdifactConfig) : Dec :=
  (parseDec config.decimal_rounding).getD ⟨1, 2⟩

/-- `SegmentGenerator.pri`: price quantized `ROUND_HALF_UP` to the
configured quantum (two fractional digits by default). -/
def pri (price : Dec) (config : EdifactConfig) : String :=
  "PRI+AAA:" ++ renderDec (quant2 .halfUp price) ++ ":EA'"

/-- `SegmentGenerator.moa`: note there is no trailing `:` before the
terminator in this variant. -/
def moa (qualifier : String) (amount : Dec) (config : EdifactConfig) : String :=
  "MOA+" ++ qualifier ++ ":" ++ renderDec (quant2 .halfUp amount) ++ "'"

/-- `SegmentGenerator.tax`: interpolates `str` of the `Decimal` rate. -/
def taxSeg (rate : Dec) : String :=
  "TAX+7+VAT+++:::" ++ renderDec rate ++ "%'"

/-- CPython `_strptime` month pattern `1[0-2]|0[1-9]|[1-9]`, alternatives
in regex priority order: the matched value and the remaining input. -/
def monthAlts : List Char → List (Nat × List Char)
  | '1' :: c :: rest =>
    (if '0' ≤ c && c ≤ '2' then [(10 + digVal c, rest)] else []) ++ [(1, c :: rest)]
  | '0' :: c :: rest =>
    if '1' ≤ c && c ≤ '9' then [(digVal c, rest)] else []
  | c :: rest =>
    if '1' ≤ c && c ≤ '9' then [(digVal c, rest)] else []
  | [] => []

/-- CPython `_strptime` day pattern `3[01]|[12]\d|0[1-9]|[1-9]`. -/
def dayAlts : List Char → List (Nat × List Char)
  | '3' :: c :: rest =>
    (if c = '0' || c = '1' then [(30 + digVal c, rest)] else []) ++ [(3, c :: rest)]
  | c1 :: c2 :: rest =>
    (if (c1 = '1' || c1 = '2') && isDig c2 then [(10 * digVal c1 + digVal c2, rest)] else []) ++
    (if c1 = '0' && '1' ≤ c2 && c2 ≤ '9' then [(digVal c2, rest)] else []) ++
    (if '1' ≤ c1 && c1 ≤ '9' then [(digVal c1, c2 :: rest)] else [])
  | [c] => if '1' ≤ c && c ≤ '9' then [(digVal c, [])] else []
  | [] => []

/-- CPython `_strptime` hour pattern `2[0-3]|[0-1]\d|\d`. -/
def hourAlts : List Char → List (Nat × List Char)
  | c1 :: c2 :: rest =>
    (if c1 = '2' && '0' ≤ c2 && c2 ≤ '3' then [(20 + digVal c2, rest)] else []) ++
    (if (c1 = '0' || c1 = '1') && isDig c2 then [(10 * digVal c1 + digVal c2, rest)] else []) ++
    (if isDig c1 then [(digVal c1, c2 :: rest)] else [])
  | [c] => if isDig c then [(digVal c, [])] else []
  | [] => []

/-- CPython `_strptime` minute pattern `[0-5]\d|\d`. -/
def minuteAlts : List Char → List (Nat × List Char)
  | c1 :: c2 :: rest =>
    (if '0' ≤ c1 && c1 ≤ '5' && isDig c2 then [(10 * digVal c1 + digVal c2, rest)] else []) ++
    (if isDig c1 then [(digVal c1, c2 :: rest)] else [])
  | [c] => if isDig c then [(digVal c, [])] else []
  | [] => []

/-- CPython `_strptime` year pattern `\d\d\d\d`: exactly four digits. -/
def yearAlts : List Char → List (Nat × List Char)
  | a :: b :: c :: d :: rest =>
    if isDig a && isDig b && isDig c && isDig d then
      [(digitsVal [a, b, c, d], rest)] else []
  | _ => []

/-- All full matches of a token sequence against the input, in regex
backtracking priority order (the head, if any, is the parse the regex
engine commits to). -/
def seqMatch : List (List Char → List (Nat × List Char)) → List Char → List (List Nat)
  | [], [] => [[]]
  | [], _ :: _ => []
  | tok :: toks, cs =>
    (tok cs).flatMap (fun vr => (seqMatch toks vr.2).map (fun vs => vr.1 :: vs))

/-- Is `y` a leap year (`datetime`'s proleptic Gregorian rule)? -/
def isLeap (y : Nat) : Bool :=
  y % 4 = 0 && (y % 100 ≠ 0 || y % 400 = 0)

/-- Days in a month of the proleptic Gregorian calendar. -/
def daysInMonth (y m : Nat) : Nat :=
  if m = 2 then (if isLeap y then 29 else 28)
  else if m = 4 || m = 6 || m = 9 || m = 11 then 30
  else 31

/-- `datetime.strptime(s, "%Y%m%d")` succeeds: the regex built from the
format must match the whole string (year exactly four digits, month and
day one or two digits each, priorities as in `_strptime`), and the
matched triple must be a constructible date (`datetime` requires
`1 <= year` and a calendar-valid day). -/
def strptimeYmd (s : String) : Bool :=
  match seqMatch [yearAlts, monthAlts, dayAlts] s.data with
  | [y, m, d] :: _ => 1 ≤ y && 1 ≤ d && d ≤ daysInMonth y m
  | _ => false

/-- `datetime.strptime(s, "%Y%m%d%H%M")` succeeds (format `"203"`).
The regex bounds hour and minute, so only the date part needs the
calendar check. -/
def strptimeYmdHM (s : String) : Bool :=
  match seqMatch [yearAlts, monthAlts, dayAlts, hourAlts, minuteAlts] s.data with
  | [y, m, d, _, _] :: _ => 1 ≤ y && 1 ≤ d && d ≤ daysInMonth y m
  | _ => false

/-- `validate_date`: format `"102"` tries `%Y%m%d`, format `"203"` tries
`%Y%m%d%H%M`; any other format code falls through both branches and
returns `True` — dates pass unchecked. -/
def validate_date (date_str : String) (date_format : String) : Bool :=
  if date_format = "102" then strptimeYmd date_str
  else if date_format = "203" then strptimeYmdHM date_str
  else true

/-- An item after the validator's numeric normalization: `quantity`
becomes `str(int(quantity))` (carried here as the integer) and `price`
becomes `Decimal(str(price))`. -/
structure NormItem where
  product_code : String
  description : String
  quantity : Int
  price : Dec
deriving DecidableEq, Repr

/-- The order dictionary after `validate_order_data` has normalized it. -/
structure NormData where
  message_ref : String
  order_number : String
  order_date : String
  delivery_date : Option String
  currency : Option String
  delivery_location : Option String
  payment_terms : Option String
  special_instructions : Option String
  incoterms : Option String
  parties : List Party
  items : List NormItem
  tax_rate : Option Dec
deriving DecidableEq, Repr

/-- The item-conversion loop of `validate_order_data`.  The dict literal
reads `product_code`, `description`, `quantity`, `price` in order
(`KeyError` on a missing key is not caught by the `except (ValueError,
TypeError)` handler and propagates); `int` failure raises `ValueError`,
caught and re-raised as `VALID_005`; `Decimal` failure raises
`InvalidOperation`, which the handler does not catch either. -/
def convertItems : List Item → Except String (List NormItem)
  | [] => .ok []
  | item :: rest => do
    let pc ← match item.product_code with
      | none => throw "KeyError: 'product_code'"
      | some s => pure s
    let desc ← match item.description with
      | none => throw "KeyError: 'description'"
      | some s => pure s
    let q ← match item.quantity with
      | none => throw "KeyError: 'quantity'"
      | some s =>
        match parseInt s with
        | none => throw "VALID_005: Invalid numeric format"
        | some q => pure q
    let p ← match item.price with
      | none => throw "KeyError: 'price'"
      | some s =>
        match parseDec s with
        | none => throw "InvalidOperation: invalid Decimal literal"
        | some p => pure p
    let restItems ← convertItems rest
    .ok (⟨pc, desc, q, p⟩ :: restItems)

/-- `validate_order_data` of refactor2: key presence, non-empty items,
date validation against the configured format (order date always;
delivery date only when present and truthy), then numeric conversion of
the items and of a truthy `tax_rate`. -/
def validate_order_data (data : OrderData) (config : EdifactConfig) :
    Except String NormData :=
  if data.message_ref.isNone || data.order_number.isNone || data.order_date.isNone ||
      data.parties.isNone || data.items.isNone then
    .error "VALID_001: Missing required fields"
  else if data.items.getD [] = [] then
    .error "VALID_002: At least one item is required"
  else if ¬ validate_date (data.order_date.getD "") config.date_format then
    .error "VALID_003: Invalid order_date format"
  else if (match data.delivery_date with
           | some dd => dd ≠ "" && ¬ validate_date dd config.date_format
           | none => false) then
    .error "VALID_004: Invalid delivery_date format"
  else do
  let items ← convertItems (data.items.getD [])
  let taxRate ←
    match data.tax_rate with
    | some ts =>
      if ts ≠ "" then
        match parseDec ts with
        | none => throw "InvalidOperation: invalid Decimal literal"
        | some r => pure (some r)
      else pure none
    | none => pure none
  .ok { message_ref := data.message_ref.getD ""
        order_number := data.order_number.getD ""
        order_date := data.order_date.getD ""
        delivery_date := data.delivery_date
        currency := data.currency
        delivery_location := data.delivery_location
        payment_terms := data.payment_terms
        special_instructions := data.special_instructions
        incoterms := data.incoterms
        parties := data.parties.getD []
        items := items
        tax_rate := taxRate }

/-- The party loop of refactor2's `generate_edifact_orders`: each party's
`qualifier` and `id` are read directly (`KeyError` propagates — no skip
logic in this variant), then optional COM segments for truthy
`address`/`contact`. -/
def partyLoop : List Party → Except String (List String)
  | [] => .ok []
  | p :: rest => do
    let q ← match p.qualifier with
      | none => throw "KeyError: 'qualifier'"
      | some s => pure s
    let i ← match p.id with
      | none => throw "KeyError: 'id'"
      | some s => pure s
    let segs := [nad q i p.name] ++
      (match p.address with
       | some a => if a ≠ "" then [com a "AD"] else []
       | none => []) ++
      (match p.contact with
       | some c => if c ≠ "" then [com c "TE"] else []
       | none => [])
    let restSegs ← partyLoop rest
    .ok (segs ++ restSegs)

/-- The item loop of refactor2: `LIN/IMD/QTY/PRI` per item with the
description escaped, accumulating the exact running total. -/
def itemSegsTotal (index : Nat) (acc : List String × Dec) :
    List NormItem → List String × Dec
  | [] => acc
  | item :: rest =>
    itemSegsTotal (index + 1)
      (acc.1 ++
        [ "LIN+" ++ natStr index ++ "++" ++ item.product_code ++ ":EN'",
          "IMD+F++:::" ++ escape_edifact item.description ++ "'",
          "QTY+21:" ++ intStr item.quantity ++ ":EA'",
          pri item.price {} ],
       decAdd acc.2 (decMulInt item.price item.quantity)) rest

/-- Truthiness of the normalized `tax_rate` as `validated_data.get`
sees it: present and a non-zero `Decimal`. -/
def truthyTax : Option Dec → Bool
  | none => false
  | some r => r.mant ≠ 0

/-- The item-loop results of refactor2's `generate_edifact_orders`:
the `LIN/IMD/QTY/PRI` segments and the exact accumulated total. -/
def itemsPart (nd : NormData) : List String × Dec :=
  itemSegsTotal 1 ([], ⟨0, 2⟩) nd.items

/-- The tax amount refactor2 computes for a truthy tax rate:
`(total_amount * tax_rate / 100).quantize(Decimal("0.01"),
rounding=ROUND_HALF_UP)`. -/
def taxAmountOf (nd : NormData) : Dec :=
  quant2 .halfUp (decDiv100 (decMul (itemsPart nd).2 (nd.tax_rate.getD ⟨0, 0⟩)))

/-- The tax block of refactor2 and the total after tax: empty and the
subtotal unless `tax_rate` is truthy. -/
def taxPart (nd : NormData) (config : EdifactConfig) : List String × Dec :=
  if truthyTax nd.tax_rate then
    ([taxSeg (nd.tax_rate.getD ⟨0, 0⟩), moa "124" (taxAmountOf nd) config],
     decAdd (itemsPart nd).2 (taxAmountOf nd))
  else ([], (itemsPart nd).2)

/-- The pure assembly of refactor2's segment list from the normalized
data and the already-formatted party segments.  The trailer count is
`len(segments)` at the moment `unt` is appended, i.e. the number of list
elements before the UNT element (UNA included). -/
def assemble (nd : NormData) (partySegs : List String)
    (config : EdifactConfig) : List String :=
  let header :=
    [ config.una_segment,
      "UNH+" ++ nd.message_ref ++ "+" ++ config.message_type ++ ":" ++
        config.version ++ ":" ++ config.release ++ ":" ++
        config.controlling_agency ++ "'",
      "BGM+220+" ++ nd.order_number ++ "+9'",
      "DTM+137:" ++ nd.order_date ++ ":" ++ config.date_format ++ "'" ] ++
    (match nd.delivery_date with
     | some d => if d ≠ "" then ["DTM+2:" ++ d ++ ":" ++ config.date_format ++ "'"] else []
     | none => []) ++
    (match nd.currency with
     | some c => if c ≠ "" then ["CUX+2:" ++ c ++ ":9'"] else []
     | none => [])
  let itemSegs := (itemsPart nd).1
  let totalAfterTax := (taxPart nd config).2
  let taxSegs := (taxPart nd config).1
  let optionals :=
    (match nd.delivery_location with
     | some l => if l ≠ "" then ["LOC+11+" ++ l ++ ":92'"] else []
     | none => []) ++
    (match nd.payment_terms with
     | some t => if t ≠ "" then ["PAI+" ++ t ++ ":3'"] else []
     | none => [])
  let pre := header ++ partySegs ++ itemSegs ++ taxSegs ++ optionals ++
    [moa "79" totalAfterTax config]
  pre ++ ["UNT+" ++ natStr pre.length ++ "+" ++ nd.message_ref ++ "'"]

/-- The segment list built by refactor2's `generate_edifact_orders`
(file writing not modelled). -/
def generateSegments (data : OrderData)
    (config : EdifactConfig := {}) : Except String (List String) := do
  let nd ← validate_order_data data config
  let partySegs ← partyLoop nd.parties
  .ok (assemble nd partySegs config)

/-- `generate_edifact_orders` of refactor2: validation errors are logged
and re-raised, so every error propagates to the caller. -/
def generate_edifact_orders (data : OrderData)
    (config : EdifactConfig := {}) : Except String String :=
  (generateSegments data config).map (String.intercalate "\n")

end Refactor2

namespace EDI

/-!
Spec-side definitions.  These follow the specification's words, not the
source, and are what the code-derived definitions above are measured
against.
-/

/-- The exact rational value of a decimal. -/
def toRat (d : Dec) : ℚ :=
  (d.mant : ℚ) / (10 : ℚ) ^ d.exp

/-- The specification's rounding rule on exact values: round to two
decimal places, ties away from zero (round-half-up). -/
def roundHalfUpQ (q : ℚ) : ℚ :=
  (if 0 ≤ q then (⌊q * 100 + 1 / 2⌋ : ℚ) else -(⌊-(q * 100) + 1 / 2⌋ : ℚ)) / 100

/-- The specification's pre-tax subtotal: the exact sum of
`quantity × price` over the items, with no intermediate rounding. -/
def subtotalQ (items : List Refactor2.NormItem) : ℚ :=
  (items.map (fun it => toRat it.price * (it.quantity : ℚ))).sum

/-- The specification's per-character escaping rule: a special character
is emitted prefixed with the release character `?`; any other character
is emitted unchanged. -/
def escChar (c : Char) : List Char :=
  if c ∈ Refactor2.EDIFACT_SPECIAL_CHARS then ['?', c] else [c]

/-- The specification's escaping of a whole field, character by
character. -/
def escSpec (l : List Char) : List Char :=
  l.flatMap escChar

/-- The count a UNT trailer declares: the digits after `"UNT+"` in the
last segment of the message. -/
def untDeclaredCount (segs : List String) : Option Nat :=
  match segs.getLast? with
  | some s =>
    if s.take 4 = "UNT+" then
      match (s.drop 4).data.takeWhile isDig with
      | [] => none
      | ds => some (digitsVal ds)
    else none
  | none => none

/-- The number of segments from the UNH header through the UNT trailer
inclusive, for a message list that starts with the UNA service-string
advice and carries one segment per element (true of every list these
theorems apply it to): everything except the UNA element. -/
def segCountFromUNH (segs : List String) : Nat :=
  segs.length - 1

/-- A minimal valid order document: all five required fields, one party,
one item, no optional fields. -/
def baseDoc : OrderData :=
  { message_ref := some "REF1"
    order_number := some "ON1"
    order_date := some "20250101"
    parties := some [{ qualifier := some "BY", id := some "123" }]
    items := some [{ product_code := some "P1", description := some "Desc",
                     quantity := some "2", price := some "3.50" }] }

/-- `baseDoc` with a free-text instruction containing the segment
terminator and the element separator. -/
def escDoc : OrderData :=
  { baseDoc with special_instructions := some "Don't+pay" }

/-- `baseDoc` with a second item whose `price` key is missing. -/
def badItemDoc : OrderData :=
  { baseDoc with
    items := some [{ product_code := some "P1", description := some "Desc",
                     quantity := some "2", price := some "3.50" },
                   { product_code := some "P2", description := some "NoPrice",
                     quantity := some "1" }] }

/-- `baseDoc` with a party whose `qualifier` key is missing. -/
def badPartyDoc : OrderData :=
  { baseDoc with parties := some [{ id := some "99" }] }

/-- `baseDoc` with an empty-string `order_number`. -/
def emptyOrderNumDoc : OrderData :=
  { baseDoc with order_number := some "" }

/-- `baseDoc` with the `order_number` key absent. -/
def absentOrderNumDoc : OrderData :=
  { baseDoc with order_number := none }

/-- `baseDoc` with one item of quantity 1 and price `0.125`, whose total
`0.125` is a rounding tie at two decimal places. -/
def tieDoc : OrderData :=
  { baseDoc with items := some [{ product_code := some "X", description := some "D",
                                  quantity := some "1", price := some "0.125" }] }

/-- `baseDoc` with subtotal `10.00` and tax rate `0.25`, whose tax
amount `0.025` is a rounding tie at two decimal places. -/
def taxTieDoc : OrderData :=
  { baseDoc with items := some [{ product_code := some "X", description := some "D",
                                  quantity := some "1", price := some "10" }]
                 tax_rate := some "0.25" }

/-- `baseDoc` with a present but empty parties list. -/
def emptyPartiesDoc : OrderData :=
  { baseDoc with parties := some [] }

/-- `baseDoc` with the parties key absent. -/
def absentPartiesDoc : OrderData :=
  { baseDoc with parties := none }

/-- `baseDoc` with an unparseable order date. -/
def badDateDoc : OrderData :=
  { baseDoc with order_date := some "NOTADATE" }

/-- `baseDoc` with a 20% tax rate. -/
def taxBaseDoc : OrderData :=
  { baseDoc with tax_rate := some "20.0" }

/-- The scenario document of the specification: header
`{message_ref: "456789", order_number: "ORD2025001", order_date:
"20250322"}`, one party `BY/123456789`, one item
`ABC123 / "Product A" / quantity "10" / price "25.50"`. -/
def scenarioDoc : OrderData :=
  { message_ref := some "456789"
    order_number := some "ORD2025001"
    order_date := some "20250322"
    parties := some [{ qualifier := some "BY", id := some "123456789" }]
    items := some [{ product_code := some "ABC123", description := some "Product A",
                     quantity := some "10", price := some "25.50" }] }

/-- The scenario document with `tax_rate: "20.0"` added. -/
def scenarioTaxDoc : OrderData :=
  { scenarioDoc with tax_rate := some "20.0" }

/-- The normalized form refactor2's validator produces from `baseDoc`. -/
def baseNd : Refactor2.NormData :=
  { message_ref := "REF1"
    order_number := "ON1"
    order_date := "20250101"
    delivery_date := none
    currency := none
    delivery_location := none
    payment_terms := none
    special_instructions := none
    incoterms := none
    parties := [{ qualifier := some "BY", id := some "123" }]
    items := [⟨"P1", "Desc", 2, ⟨350, 2⟩⟩]
    tax_rate := none }

/-- The normalized form refactor2's validator produces from
`taxBaseDoc`. -/
def taxBaseNd : Refactor2.NormData :=
  { baseNd with tax_rate := some ⟨200, 1⟩ }

/-- The normalized form refactor2's validator produces from
`emptyPartiesDoc`. -/
def emptyPartiesNd : Refactor2.NormData :=
  { baseNd with parties := [] }

end EDI


/-!
Helper lemmas: the exact-value semantics of the decimal operations.
-/

namespace EDI

theorem shiftDiv (m : ℤ) (k l : ℕ) (h : k ≤ l) :
    ((m : ℚ) * (10 : ℚ) ^ (l - k)) / (10 : ℚ) ^ l = (m : ℚ) / (10 : ℚ) ^ k := by
  have h10 : (10 : ℚ) ^ l = 10 ^ (l - k) * 10 ^ k := by
    rw [← pow_add]
    congr 1
    omega
  have hne : (10 : ℚ) ^ (l - k) ≠ 0 := by positivity
  rw [h10, mul_comm (m : ℚ) _, mul_div_mul_left _ _ hne]

theorem toRat_decAdd (a b : Dec) : toRat (decAdd a b) = toRat a + toRat b := by
  unfold toRat decAdd
  push_cast
  rw [add_div, shiftDiv a.mant a.exp (max a.exp b.exp) (le_max_left _ _),
    shiftDiv b.mant b.exp (max a.exp b.exp) (le_max_right _ _)]

theorem toRat_decMul (a b : Dec) : toRat (decMul a b) = toRat a * toRat b := by
  unfold toRat decMul
  push_cast
  rw [pow_add, div_mul_div_comm]

theorem toRat_decMulInt (a : Dec) (n : ℤ) : toRat (decMulInt a n) = toRat a * n := by
  unfold toRat decMulInt
  push_cast
  rw [mul_div_right_comm]

theorem toRat_decDiv100 (a : Dec) : toRat (decDiv100 a) = toRat a / 100 := by
  unfold toRat decDiv100
  rw [pow_add, ← div_div]
  norm_num

theorem floorAddHalf (m : ℤ) : ⌊(m : ℚ) + 1 / 2⌋ = m := by
  rw [Int.floor_eq_iff]
  constructor
  · linarith
  · linarith

theorem floorIntDivQ (a : ℤ) (b : ℕ) : ⌊(a : ℚ) / ((b : ℕ) : ℚ)⌋ = a.ediv b := by
  have := Rat.floor_intCast_div_natCast a b
  rw [this]
  rfl

theorem halfUpCore (m : ℤ) (k : ℕ) (hk : 1 ≤ k) :
    (m + (10 : ℤ) ^ k / 2).ediv ((10 : ℤ) ^ k) = ⌊(m : ℚ) / (10 : ℚ) ^ k + 1 / 2⌋ := by
  have h1 : (10 : ℤ) ^ k = 10 ^ (k - 1) * 10 := by
    rw [← pow_succ]
    congr 1
    omega
  have hsplit : (10 : ℤ) ^ k = 2 * (5 * 10 ^ (k - 1)) := by
    rw [h1]
    ring
  have hhalf : (10 : ℤ) ^ k / 2 = 5 * 10 ^ (k - 1) := by
    rw [hsplit]
    exact Int.mul_ediv_cancel_left _ (by norm_num)
  have hHK : ((5 * 10 ^ (k - 1) : ℤ) : ℚ) / ((10 : ℚ) ^ k) = 1 / 2 := by
    rw [div_eq_div_iff (by positivity) (by norm_num)]
    have h2 : ((10 : ℚ)) ^ k = 2 * (5 * 10 ^ (k - 1)) := by
      exact_mod_cast congrArg (fun z : ℤ => (z : ℚ)) hsplit
    push_cast
    rw [h2]
    ring
  have hsum : (m : ℚ) / (10 : ℚ) ^ k + 1 / 2 =
      ((m + 5 * 10 ^ (k - 1) : ℤ) : ℚ) / ((10 ^ k : ℕ) : ℚ) := by
    have hcast : ((10 ^ k : ℕ) : ℚ) = (10 : ℚ) ^ k := by push_cast; ring
    rw [hcast, ← hHK]
    push_cast
    rw [add_div]
  rw [hhalf, hsum, floorIntDivQ]
  congr 1
  push_cast
  ring

theorem toRat_nonneg_iff (d : Dec) : 0 ≤ toRat d ↔ 0 ≤ d.mant := by
  unfold toRat
  rw [le_div_iff₀ (by positivity)]
  simp

theorem toRat_quant2_halfUp (d : Dec) :
    toRat (quant2 .halfUp d) = roundHalfUpQ (toRat d) := by
  by_cases he : d.exp ≤ 2
  · have hM : toRat d * 100 = ((d.mant * 10 ^ (2 - d.exp) : ℤ) : ℚ) := by
      have h1 : toRat d = ((d.mant : ℚ) * 10 ^ (2 - d.exp)) / 10 ^ 2 :=
        (shiftDiv _ _ _ he).symm
      have h2 : (10 : ℚ) ^ 2 = 100 := by norm_num
      rw [h1, h2, div_mul_cancel₀ _ (by norm_num : (100 : ℚ) ≠ 0)]
      push_cast
      ring
    have hL : toRat (quant2 .halfUp d) = ((d.mant * 10 ^ (2 - d.exp) : ℤ) : ℚ) / 100 := by
      unfold quant2
      rw [if_pos he]
      unfold toRat
      norm_num
    unfold roundHalfUpQ
    rcases le_or_lt 0 (toRat d) with hq | hq
    · rw [if_pos hq, hM, floorAddHalf, hL]
    · have hMneg : -(toRat d * 100) = ((-(d.mant * 10 ^ (2 - d.exp)) : ℤ) : ℚ) := by
        rw [hM]
        push_cast
        ring
      rw [if_neg (not_le.mpr hq), hMneg, floorAddHalf, hL]
      push_cast
      ring
  · have hk : 1 ≤ d.exp - 2 := by omega
    have hexp : d.exp = (d.exp - 2) + 2 := by omega
    have hval : toRat d * 100 = (d.mant : ℚ) / (10 : ℚ) ^ (d.exp - 2) := by
      unfold toRat
      rw [hexp, pow_add, ← div_div]
      norm_num
    have hL : toRat (quant2 .halfUp d) =
        ((halfUpInt d.mant ((10 : ℤ) ^ (d.exp - 2)) : ℤ) : ℚ) / 100 := by
      have : quant2 .halfUp d = ⟨halfUpInt d.mant ((10 : ℤ) ^ (d.exp - 2)), 2⟩ := by
        unfold quant2
        rw [if_neg he]
      rw [this]
      unfold toRat
      norm_num
    unfold roundHalfUpQ
    rcases le_or_lt 0 (toRat d) with hq | hq
    · have hm : 0 ≤ d.mant := (toRat_nonneg_iff d).mp hq
      rw [if_pos hq, hval, ← halfUpCore d.mant (d.exp - 2) hk, hL]
      unfold halfUpInt
      rw [if_pos hm]
    · have hm : ¬ 0 ≤ d.mant := fun h => absurd ((toRat_nonneg_iff d).mpr h) (not_le.mpr hq)
      have hvalneg : -(toRat d * 100) = ((-d.mant : ℤ) : ℚ) / (10 : ℚ) ^ (d.exp - 2) := by
        rw [hval]
        push_cast
        ring
      rw [if_neg (not_le.mpr hq), hvalneg, ← halfUpCore (-d.mant) (d.exp - 2) hk, hL]
      unfold halfUpInt
      rw [if_neg hm]
      push_cast
      ring

end EDI

/-!
Helper lemmas: the sequential-replace escaping equals per-character
escaping, and decoding inverts it.
-/

namespace Refactor2

open EDI

theorem replaceChar_append (c : Char) (r : List Char) (xs ys : List Char) :
    replaceChar c r (xs ++ ys) = replaceChar c r xs ++ replaceChar c r ys := by
  induction xs with
  | nil => rfl
  | cons a xs ih =>
    by_cases h : a = c
    · simp [replaceChar, h, ih]
    · simp [replaceChar, h, ih]

theorem replaceChar_singleton_ne (c : Char) (r : List Char) (a : Char) (h : a ≠ c) :
    replaceChar c r [a] = [a] := by
  simp [replaceChar, h]

theorem escBody_nested (l : List Char) :
    escBody l =
      replaceChar '*' ['?', '*'] (replaceChar ':' ['?', ':']
        (replaceChar '+' ['?', '+'] (replaceChar '\'' ['?', '\'']
          (replaceChar '?' ['?', '?'] l)))) := rfl

theorem escBody_append (xs ys : List Char) :
    escBody (xs ++ ys) = escBody xs ++ escBody ys := by
  simp [escBody_nested, replaceChar_append]

theorem escBody_singleton (a : Char) : escBody [a] = escChar a := by
  by_cases h1 : a = '?'
  · subst h1; rfl
  · by_cases h2 : a = '\''
    · subst h2; rfl
    · by_cases h3 : a = '+'
      · subst h3; rfl
      · by_cases h4 : a = ':'
        · subst h4; rfl
        · by_cases h5 : a = '*'
          · subst h5; rfl
          · rw [escBody_nested,
              replaceChar_singleton_ne _ _ _ h1,
              replaceChar_singleton_ne _ _ _ h2,
              replaceChar_singleton_ne _ _ _ h3,
              replaceChar_singleton_ne _ _ _ h4,
              replaceChar_singleton_ne _ _ _ h5]
            simp [escChar, EDIFACT_SPECIAL_CHARS, h1, h2, h3, h4, h5]

theorem escBody_eq_escSpec (l : List Char) : escBody l = escSpec l := by
  induction l with
  | nil => rfl
  | cons a l ih =>
    have : a :: l = [a] ++ l := rfl
    rw [this, escBody_append, escBody_singleton, ih]
    simp [escSpec]

theorem unescape_pair (c : Char) (rest : List Char) :
    unescapeChars ('?' :: c :: rest) = c :: unescapeChars rest := by
  simp [unescapeChars]

theorem unescape_cons_ne (a : Char) (rest : List Char) (h : ¬ a = '?') :
    unescapeChars (a :: rest) = a :: unescapeChars rest := by
  cases rest with
  | nil => rfl
  | cons b r => simp [unescapeChars, h]

theorem unescape_escSpec (l : List Char) : unescapeChars (escSpec l) = l := by
  induction l with
  | nil => rfl
  | cons a l ih =>
    have hcons : escSpec (a :: l) = escChar a ++ escSpec l := by
      simp [escSpec]
    by_cases h : a ∈ EDIFACT_SPECIAL_CHARS
    · rw [hcons]
      rw [show escChar a = ['?', a] from by simp [escChar, h]]
      rw [List.cons_append, List.cons_append, List.nil_append, unescape_pair, ih]
    · have ha : ¬ a = '?' := by
        intro hq
        exact h (by rw [hq]; simp [EDIFACT_SPECIAL_CHARS])
      rw [hcons]
      rw [show escChar a = [a] from by simp [escChar, h]]
      rw [List.cons_append, List.nil_append, unescape_cons_ne a _ ha, ih]

end Refactor2

/-!
Helper lemmas: the exact value of the accumulated item total.
-/

namespace EDI

theorem subtotalQ_cons (it : Refactor2.NormItem) (rest : List Refactor2.NormItem) :
    subtotalQ (it :: rest) = toRat it.price * (it.quantity : ℚ) + subtotalQ rest := by
  simp [subtotalQ]

theorem itemSegsTotal_toRat (items : List Refactor2.NormItem) :
    ∀ (i : Nat) (acc : List String × Dec),
      toRat (Refactor2.itemSegsTotal i acc items).2 = toRat acc.2 + subtotalQ items := by
  induction items with
  | nil =>
    intro i acc
    simp [Refactor2.itemSegsTotal, subtotalQ]
  | cons it rest ih =>
    intro i acc
    rw [show Refactor2.itemSegsTotal i acc (it :: rest) =
        Refactor2.itemSegsTotal (i + 1)
          (acc.1 ++
            [ "LIN+" ++ natStr i ++ "++" ++ it.product_code ++ ":EN'",
              "IMD+F++:::" ++ Refactor2.escape_edifact it.description ++ "'",
              "QTY+21:" ++ intStr it.quantity ++ ":EA'",
              Refactor2.pri it.price {} ],
           decAdd acc.2 (decMulInt it.price it.quantity)) rest from rfl]
    rw [ih, subtotalQ_cons]
    simp only [toRat_decAdd, toRat_decMulInt]
    ring

theorem itemsPart_toRat (nd : Refactor2.NormData) :
    toRat (Refactor2.itemsPart nd).2 = subtotalQ nd.items := by
  unfold Refactor2.itemsPart
  rw [itemSegsTotal_toRat]
  simp [toRat]

end EDI

/-!
Claim theorems.
-/

open EDI

/-- C1: the claim says the UNT-declared count equals the number of
segments from UNH through UNT inclusive.  On the minimal valid document,
`order_export.py` declares 9 where that inclusive count is 10 (it
computes `len(edifact) - 1` before appending the trailer, so the trailer
itself is left out); refactor2 — whose own comment says the correct
count includes UNT — declares the inclusive count 10. -/
theorem unt_count_vs_inclusive_count :
    (OrderExport.generateSegments baseDoc).map untDeclaredCount = .ok (some 9) ∧
    (OrderExport.generateSegments baseDoc).map segCountFromUNH = .ok 10 ∧
    (Refactor2.generateSegments baseDoc).map untDeclaredCount = .ok (some 10) ∧
    (Refactor2.generateSegments baseDoc).map segCountFromUNH = .ok 10 := by
  exact ⟨rfl, rfl, rfl, rfl⟩

/-- C2: the claim says every special character of a user-supplied text
field is escaped with the release character.  `order_export.py` injects
`special_instructions` into the FTX segment verbatim: for the field
`Don't+pay` it emits `FTX+AAI+++Don't+pay'` — with the segment
terminator and element separator raw — whereas the escaping function of
refactor2 shows the escaped form `Don?'t?+pay`. -/
theorem order_export_emits_unescaped_free_text :
    (OrderExport.generateSegments escDoc).map
      (fun segs => segs.contains "FTX+AAI+++Don't+pay'") = .ok true ∧
    Refactor2.escape_edifact "Don't+pay" = "Don?'t?+pay" ∧
    "FTX+AAI+++" ++ Refactor2.escape_edifact "Don't+pay" ++ "'" ≠
      "FTX+AAI+++Don't+pay'" := by
  refine ⟨rfl, rfl, ?_⟩
  decide

/-- C3: the claim says an item missing a required field is skipped and
no error reaches the caller.  In `order_export.py`, `format_item`
returns `[]` for such an item and the caller's tuple unpacking of that
`[]` raises `ValueError`, which propagates to the caller of
`generate_orders`; in refactor1 a party missing `qualifier` raises
`KeyError`.  Both abort generation. -/
theorem invalid_item_aborts_generation :
    OrderExport.generate_orders badItemDoc =
      .error "ValueError: not enough values to unpack (expected 2, got 0)" ∧
    Refactor1.generate_edifact_orders badPartyDoc = .error "KeyError: 'qualifier'" := by
  exact ⟨rfl, rfl⟩

/-- C9: the specification's two concrete scenarios, checked against
refactor1 (the variant whose segment formatting matches the claimed
strings exactly): without tax the message contains `MOA+79:255.00:'` and
the item segments at line number 1; with `tax_rate: "20.0"` it contains
`TAX+7+VAT+++:::20.0%'`, `MOA+124:51.00:'` and `MOA+79:306.00:'`. -/
theorem scenario_totals_exact :
    Refactor1.generateSegments scenarioDoc =
      .ok [ "UNA:+.? '",
            "UNH+456789+ORDERS:D:96A:UN'",
            "BGM+220+ORD2025001+9'",
            "DTM+137:20250322:102'",
            "NAD+BY+123456789::91'",
            "LIN+1++ABC123:EN'",
            "IMD+F++:::Product A'",
            "QTY+21:10:EA'",
            "PRI+AAA:25.50:EA'",
            "MOA+79:255.00:'",
            "UNT+9+456789'" ] ∧
    Refactor1.generateSegments scenarioTaxDoc =
      .ok [ "UNA:+.? '",
            "UNH+456789+ORDERS:D:96A:UN'",
            "BGM+220+ORD2025001+9'",
            "DTM+137:20250322:102'",
            "NAD+BY+123456789::91'",
            "LIN+1++ABC123:EN'",
            "IMD+F++:::Product A'",
            "QTY+21:10:EA'",
            "PRI+AAA:25.50:EA'",
            "TAX+7+VAT+++:::20.0%'",
            "MOA+124:51.00:'",
            "MOA+79:306.00:'",
            "UNT+11+456789'" ] := by
  exact ⟨rfl, rfl⟩

/-- C10: refactor2's `escape_edifact` is uniquely decodable — reading
each release-character pair `?x` back as the literal `x` recovers every
input exactly, so the escaping is injective. -/
theorem escape_edifact_uniquely_decodable (s : String) :
    Refactor2.unescapeChars (Refactor2.escape_edifact s).data = s.data := by
  show Refactor2.unescapeChars (Refactor2.escBody s.data) = s.data
  rw [Refactor2.escBody_eq_escSpec, Refactor2.unescape_escSpec]

/-- C4 counterexample: the claim says an absent *or empty* order number
raises an error that reaches the caller with no message text.  With the
empty-string order number, refactor1 (whose validator only checks key
presence) returns a complete message — including the malformed
`BGM+220++9'` — and `order_export.py`, which does detect the empty
field, swallows the error and returns the empty string instead of
raising to the caller. -/
theorem missing_order_number_error_not_delivered :
    (Refactor1.generateSegments emptyOrderNumDoc).map
      (fun segs => segs.contains "BGM+220++9'") = .ok true ∧
    (Refactor1.generateSegments emptyOrderNumDoc).map List.length = .ok 11 ∧
    OrderExport.generate_orders emptyOrderNumDoc = .ok "" := by
  exact ⟨rfl, rfl, rfl⟩

/-- C5 counterexample: the claim says the MOA+79 amount is the exact
item sum rounded half-up.  For the tie subtotal `0.125`,
`order_export.py` and refactor1 emit `MOA+79:0.12:'` (the `.2f` format
applies the context's banker's rounding), while rounding half-up —
shown both on the decimal model and on the exact-value rule — gives
`0.13`. -/
theorem grand_total_not_half_up :
    (OrderExport.generateSegments tieDoc).map
      (fun segs => segs.contains "MOA+79:0.12:'") = .ok true ∧
    (OrderExport.generateSegments tieDoc).map
      (fun segs => segs.contains "MOA+79:0.13:'") = .ok false ∧
    (Refactor1.generateSegments tieDoc).map
      (fun segs => segs.contains "MOA+79:0.12:'") = .ok true ∧
    renderDec (quant2 .halfUp ⟨125, 3⟩) = "0.13" ∧
    roundHalfUpQ (1 / 8 : ℚ) = 13 / 100 := by
  refine ⟨rfl, rfl, rfl, rfl, ?_⟩
  unfold roundHalfUpQ
  rw [if_pos (by norm_num)]
  rw [show (1 / 8 : ℚ) * 100 + 1 / 2 = ((13 : ℤ) : ℚ) by norm_num]
  rw [Int.floor_intCast]
  norm_num

/-- C6 counterexample: the claim says the tax amount is rounded
half-up at the point of computation.  For subtotal `10.00` and rate
`0.25` the exact tax is the tie `0.025`: refactor1's `quantize` without
a rounding argument applies the context's banker's rounding and emits
`MOA+124:0.02:'`, while half-up — shown on the decimal model and the
exact-value rule — gives `0.03`. -/
theorem tax_not_half_up_in_refactor1 :
    (Refactor1.generateSegments taxTieDoc).map
      (fun segs => segs.contains "MOA+124:0.02:'") = .ok true ∧
    (Refactor1.generateSegments taxTieDoc).map
      (fun segs => segs.contains "MOA+124:0.03:'") = .ok false ∧
    renderDec (quant2 .halfUp (decDiv100 (decMul ⟨1000, 2⟩ ⟨25, 2⟩))) = "0.03" ∧
    roundHalfUpQ (1 / 40 : ℚ) = 3 / 100 := by
  refine ⟨rfl, rfl, rfl, ?_⟩
  unfold roundHalfUpQ
  rw [if_pos (by norm_num)]
  rw [show (1 / 40 : ℚ) * 100 + 1 / 2 = ((3 : ℤ) : ℚ) by norm_num]
  rw [Int.floor_intCast]
  norm_num

/-- C7 counterexample: the claim says absence or emptiness of the
parties collection alone never makes validation fail.  In fact
`order_export.py` rejects an empty (falsy) parties list, and refactor1
and refactor2 reject an absent parties key. -/
theorem parties_requirement_counterexample :
    OrderExport.validate_data emptyPartiesDoc =
      .error "Missing required field: parties" ∧
    Refactor1.validate_order_data absentPartiesDoc = .error "Missing required fields." ∧
    Refactor2.validate_order_data absentPartiesDoc {} =
      .error "VALID_001: Missing required fields" := by
  exact ⟨rfl, rfl, rfl⟩

/-- C8 counterexample: the claim says that under date-format code 102
every input with a non-`CCYYMMDD` date raises an error.  With the
(default) format code 102, refactor1 and `order_export.py` perform no
date validation at all and happily emit `DTM+137:NOTADATE:102'`; only
refactor2 rejects the document. -/
theorem refactor1_accepts_invalid_date :
    (Refactor1.generateSegments badDateDoc).map
      (fun segs => segs.contains "DTM+137:NOTADATE:102'") = .ok true ∧
    (OrderExport.generateSegments badDateDoc).map
      (fun segs => segs.contains "DTM+137:NOTADATE:102'") = .ok true ∧
    Refactor2.validate_order_data badDateDoc {} =
      .error "VALID_003: Invalid order_date format" := by
  exact ⟨rfl, rfl, rfl⟩

theorem isNone_eq_false_of_truthy (o : Option String) (h : truthyS o = true) :
    o.isNone = false := by
  cases o with
  | none => simp [truthyS] at h
  | some s => rfl

/-- C4 amended: for an input whose `order_number` key is absent,
`order_export.py` raises internally an error naming the field but
catches it and returns the empty string — the caller receives no error —
while refactor1 and refactor2 propagate to the caller a generic
missing-required-fields error that does not name `order_number`; in all
three, no message text is produced.  (For an order number that is
present but empty, only `order_export.py` detects anything at all, as
the counterexample shows.) -/
theorem missing_order_number_amended (d : OrderData) (h : d.order_number = none) :
    OrderExport.generate_orders d = .ok "" ∧
    Refactor1.generate_edifact_orders d = .error "Missing required fields." ∧
    Refactor2.generate_edifact_orders d =
      .error "VALID_001: Missing required fields" := by
  refine ⟨?_, ?_, ?_⟩
  · unfold OrderExport.generate_orders OrderExport.validate_data
    rw [h]
    by_cases hm : truthyS d.message_ref = true
    · rw [if_neg (fun hn => hn hm), if_pos (by simp [truthyS])]
    · rw [if_pos hm]
  · have hv : Refactor1.validate_order_data d = .error "Missing required fields." := by
      unfold Refactor1.validate_order_data
      rw [h]
      simp
    simp [Refactor1.generate_edifact_orders, Refactor1.generateSegments, hv,
      Except.map, Bind.bind, Except.bind]
  · have hv : Refactor2.validate_order_data d {} =
        .error "VALID_001: Missing required fields" := by
      unfold Refactor2.validate_order_data
      rw [h]
      simp
    simp [Refactor2.generate_edifact_orders, Refactor2.generateSegments, hv,
      Except.map, Bind.bind, Except.bind]

/-- Witness for the C4 amended theorem at the concrete document with an
absent order number. -/
theorem missing_order_number_amended_witness :
    absentOrderNumDoc.order_number = none ∧
    (OrderExport.generate_orders absentOrderNumDoc = .ok "" ∧
     Refactor1.generate_edifact_orders absentOrderNumDoc =
       .error "Missing required fields." ∧
     Refactor2.generate_edifact_orders absentOrderNumDoc =
       .error "VALID_001: Missing required fields") :=
  ⟨rfl, missing_order_number_amended absentOrderNumDoc rfl⟩

/-- C7 amended: the validators do demand the `parties` key: an absent
parties collection fails validation in every variant (see the
counterexample).  What holds is the narrower statement: with the key
present, an *empty* parties list alone does not fail validation in
refactor1 (whose required-field check is key presence only) — and
likewise in refactor2, shown on the concrete document — whereas
`order_export.py` rejects an empty parties list just like an absent
one, its check being truthiness. -/
theorem parties_requirement_amended (d : OrderData) (its : List Item)
    (h1 : truthyS d.message_ref = true) (h2 : truthyS d.order_number = true)
    (h3 : truthyS d.order_date = true) (h4 : d.parties = some [])
    (h5 : d.items = some its) (h6 : its ≠ []) :
    Refactor1.validate_order_data d = .ok d ∧
    OrderExport.validate_data d = .error "Missing required field: parties" ∧
    Refactor2.validate_order_data emptyPartiesDoc {} = .ok emptyPartiesNd := by
  have hm1 := isNone_eq_false_of_truthy _ h1
  have hm2 := isNone_eq_false_of_truthy _ h2
  have hm3 := isNone_eq_false_of_truthy _ h3
  refine ⟨?_, ?_, rfl⟩
  · unfold Refactor1.validate_order_data
    rw [h4, h5]
    simp [hm1, hm2, hm3, h6]
  · unfold OrderExport.validate_data
    rw [h4]
    rw [if_neg (fun hn => hn h1), if_neg (fun hn => hn h2), if_neg (fun hn => hn h3)]
    simp

/-- Witness for the C7 amended theorem at the concrete document with an
empty parties list. -/
theorem parties_requirement_amended_witness :
    truthyS emptyPartiesDoc.message_ref = true ∧
    truthyS emptyPartiesDoc.order_number = true ∧
    truthyS emptyPartiesDoc.order_date = true ∧
    emptyPartiesDoc.parties = some [] ∧
    emptyPartiesDoc.items = some [{ product_code := some "P1", description := some "Desc",
                                    quantity := some "2", price := some "3.50" }] ∧
    (Refactor1.validate_order_data emptyPartiesDoc = .ok emptyPartiesDoc ∧
     OrderExport.validate_data emptyPartiesDoc =
       .error "Missing required field: parties" ∧
     Refactor2.validate_order_data emptyPartiesDoc {} = .ok emptyPartiesNd) :=
  ⟨rfl, rfl, rfl, rfl, rfl,
    parties_requirement_amended emptyPartiesDoc _ rfl rfl rfl rfl rfl (by decide)⟩

/-- C8 amended: only refactor2 validates dates at all (the
counterexample shows refactor1 and `order_export.py` accept any string).
In refactor2, an unsupported date-format code passes every date string
unchecked; under the default code 102 a document whose order date fails
`strptime("%Y%m%d")` is rejected with the invalid-order-date error.  The
accepted strings are not "exactly 8 digits": the `_strptime` regex is a
four-digit year with one- or two-digit month and day, so the seven-digit
`2025111` (2025-11-01) passes, while the calendar check rejects
`20250230`. -/
theorem refactor2_date_validation_amended :
    (∀ (s fmt : String), fmt ≠ "102" → fmt ≠ "203" →
      Refactor2.validate_date s fmt = true) ∧
    (∀ (d : OrderData) (od : String) (its : List Item),
      d.message_ref.isNone = false → d.order_number.isNone = false →
      d.order_date = some od → d.parties.isNone = false →
      d.items = some its → its ≠ [] → Refactor2.strptimeYmd od = false →
      Refactor2.validate_order_data d {} =
        .error "VALID_003: Invalid order_date format") ∧
    Refactor2.validate_date "2025111" "102" = true ∧
    Refactor2.validate_date "20250230" "102" = false := by
  refine ⟨?_, ?_, rfl, rfl⟩
  · intro s fmt hf1 hf2
    unfold Refactor2.validate_date
    rw [if_neg hf1, if_neg hf2]
  · intro d od its hm1 hm2 hod hp hi hits hbad
    unfold Refactor2.validate_order_data
    rw [hod, hi]
    simp [hm1, hm2, hp, hits, Refactor2.validate_date, hbad]

/-- Witness for the C8 amended theorem: the unsupported format code
`"999"` passes a non-date string, and the concrete bad-date document is
rejected by refactor2's validator. -/
theorem refactor2_date_validation_amended_witness :
    ("999" : String) ≠ "102" ∧ ("999" : String) ≠ "203" ∧
    Refactor2.validate_date "garbage" "999" = true ∧
    badDateDoc.order_date = some "NOTADATE" ∧
    Refactor2.strptimeYmd "NOTADATE" = false ∧
    Refactor2.validate_order_data badDateDoc {} =
      .error "VALID_003: Invalid order_date format" :=
  ⟨by decide, by decide,
   refactor2_date_validation_amended.1 "garbage" "999" (by decide) (by decide),
   rfl, rfl,
   refactor2_date_validation_amended.2.1 badDateDoc "NOTADATE"
     [{ product_code := some "P1", description := some "Desc",
        quantity := some "2", price := some "3.50" }]
     rfl rfl rfl rfl rfl (by decide) rfl⟩

/-- C5 amended: the claim's property holds of refactor2 (rather than of
`order_export.py`/refactor1, which the counterexample shows round the
tie half-even at format time): for every document refactor2 validates,
when the tax rate is not truthy the MOA+79 segment the generator emits
carries the accumulated item total, and the exact value of that amount
quantized `ROUND_HALF_UP` — which is what `moa` renders — equals the
exact decimal sum of `quantity × price` over the items rounded
half-up exactly once (no intermediate rounding). -/
theorem refactor2_total_half_up_once (d : OrderData) (nd : Refactor2.NormData)
    (ps : List String)
    (h1 : Refactor2.validate_order_data d {} = .ok nd)
    (h2 : Refactor2.partyLoop nd.parties = .ok ps)
    (h3 : Refactor2.truthyTax nd.tax_rate = false) :
    Refactor2.generateSegments d {} = .ok (Refactor2.assemble nd ps {}) ∧
    Refactor2.moa "79" (Refactor2.itemsPart nd).2 {} ∈ Refactor2.assemble nd ps {} ∧
    toRat (quant2 .halfUp (Refactor2.itemsPart nd).2) =
      roundHalfUpQ (subtotalQ nd.items) := by
  refine ⟨?_, ?_, ?_⟩
  · simp [Refactor2.generateSegments, h1, h2, Bind.bind, Except.bind]
  · simp [Refactor2.assemble, Refactor2.taxPart, h3]
  · rw [toRat_quant2_halfUp, itemsPart_toRat]

/-- Witness for the C5 amended theorem at the minimal valid document. -/
theorem refactor2_total_half_up_once_witness :
    Refactor2.validate_order_data baseDoc {} = .ok baseNd ∧
    Refactor2.partyLoop baseNd.parties = .ok ["NAD+BY+123::91'"] ∧
    Refactor2.truthyTax baseNd.tax_rate = false ∧
    (Refactor2.generateSegments baseDoc {} =
       .ok (Refactor2.assemble baseNd ["NAD+BY+123::91'"] {}) ∧
     Refactor2.moa "79" (Refactor2.itemsPart baseNd).2 {} ∈
       Refactor2.assemble baseNd ["NAD+BY+123::91'"] {} ∧
     toRat (quant2 .halfUp (Refactor2.itemsPart baseNd).2) =
       roundHalfUpQ (subtotalQ baseNd.items)) :=
  ⟨rfl, rfl, rfl, refactor2_total_half_up_once baseDoc baseNd _ rfl rfl rfl⟩

/-- C6 amended: the claim's property holds of refactor2 (refactor1, per
the counterexample, quantizes the tax with the context's half-even
default): for every document refactor2 validates whose tax rate is
truthy, the generator emits the TAX segment, an MOA+124 segment whose
amount is the tax, and an MOA+79 segment whose amount is the grand
total; the tax amount's exact value is `subtotal × rate / 100` rounded
half-up independently at the point of computation, and the grand-total
value is the unrounded exact subtotal plus that rounded tax (each then
rendered by `moa` quantized half-up). -/
theorem refactor2_tax_half_up_independent (d : OrderData) (nd : Refactor2.NormData)
    (ps : List String)
    (h1 : Refactor2.validate_order_data d {} = .ok nd)
    (h2 : Refactor2.partyLoop nd.parties = .ok ps)
    (h3 : Refactor2.truthyTax nd.tax_rate = true) :
    Refactor2.generateSegments d {} = .ok (Refactor2.assemble nd ps {}) ∧
    Refactor2.taxSeg (nd.tax_rate.getD ⟨0, 0⟩) ∈ Refactor2.assemble nd ps {} ∧
    Refactor2.moa "124" (Refactor2.taxAmountOf nd) {} ∈ Refactor2.assemble nd ps {} ∧
    Refactor2.moa "79" (decAdd (Refactor2.itemsPart nd).2 (Refactor2.taxAmountOf nd)) {} ∈
      Refactor2.assemble nd ps {} ∧
    toRat (Refactor2.taxAmountOf nd) =
      roundHalfUpQ (subtotalQ nd.items * toRat (nd.tax_rate.getD ⟨0, 0⟩) / 100) ∧
    toRat (decAdd (Refactor2.itemsPart nd).2 (Refactor2.taxAmountOf nd)) =
      subtotalQ nd.items +
        roundHalfUpQ (subtotalQ nd.items * toRat (nd.tax_rate.getD ⟨0, 0⟩) / 100) := by
  have htax : toRat (Refactor2.taxAmountOf nd) =
      roundHalfUpQ (subtotalQ nd.items * toRat (nd.tax_rate.getD ⟨0, 0⟩) / 100) := by
    unfold Refactor2.taxAmountOf
    rw [toRat_quant2_halfUp, toRat_decDiv100, toRat_decMul, itemsPart_toRat]
  refine ⟨?_, ?_, ?_, ?_, htax, ?_⟩
  · simp [Refactor2.generateSegments, h1, h2, Bind.bind, Except.bind]
  · simp [Refactor2.assemble, Refactor2.taxPart, h3]
  · simp [Refactor2.assemble, Refactor2.taxPart, h3]
  · simp [Refactor2.assemble, Refactor2.taxPart, h3]
  · rw [toRat_decAdd, itemsPart_toRat, htax]

/-- Witness for the C6 amended theorem at the minimal valid document
with tax rate `20.0`. -/
theorem refactor2_tax_half_up_independent_witness :
    Refactor2.validate_order_data taxBaseDoc {} = .ok taxBaseNd ∧
    Refactor2.partyLoop taxBaseNd.parties = .ok ["NAD+BY+123::91'"] ∧
    Refactor2.truthyTax taxBaseNd.tax_rate = true ∧
    (Refactor2.generateSegments taxBaseDoc {} =
       .ok (Refactor2.assemble taxBaseNd ["NAD+BY+123::91'"] {}) ∧
     Refactor2.taxSeg (taxBaseNd.tax_rate.getD ⟨0, 0⟩) ∈
       Refactor2.assemble taxBaseNd ["NAD+BY+123::91'"] {} ∧
     Refactor2.moa "124" (Refactor2.taxAmountOf taxBaseNd) {} ∈
       Refactor2.assemble taxBaseNd ["NAD+BY+123::91'"] {} ∧
     Refactor2.moa "79"
         (decAdd (Refactor2.itemsPart taxBaseNd).2 (Refactor2.taxAmountOf taxBaseNd)) {} ∈
       Refactor2.assemble taxBaseNd ["NAD+BY+123::91'"] {} ∧
     toRat (Refactor2.taxAmountOf taxBaseNd) =
       roundHalfUpQ (subtotalQ taxBaseNd.items *
         toRat (taxBaseNd.tax_rate.getD ⟨0, 0⟩) / 100) ∧
     toRat (decAdd (Refactor2.itemsPart taxBaseNd).2 (Refactor2.taxAmountOf taxBaseNd)) =
       subtotalQ taxBaseNd.items +
         roundHalfUpQ (subtotalQ taxBaseNd.items *
           toRat (taxBaseNd.tax_rate.getD ⟨0, 0⟩) / 100)) :=
  ⟨rfl, rfl, rfl, refactor2_tax_half_up_independent taxBaseDoc taxBaseNd _ rfl rfl rfl⟩
